import Mathlib

/-!
Verification of the core request/auth/pagination layer of the microsoftMCP
repository (files `src/microsoft_mcp/auth.py`, `src/microsoft_mcp/graph.py`,
`src/microsoft_mcp/tools.py`), via a shallow embedding in Lean 4.

External collaborators (the MSAL identity library, the HTTP client, the
filesystem and the Graph server) are modelled as explicit parameters: the
sequence of responses the server returns to successive attempts, the results
the identity library returns, and a record of filesystem state.  Side effects
(token acquisition, HTTP attempts, sleeps) are returned as an explicit
effect trace.
-/

namespace MicrosoftMCP

/-- Python string helper: `pre in s` / `s.startswith(pre)` style prefix test,
on the underlying character lists. -/
def pyStartswith (pre s : String) : Bool :=
  pre.toList.isPrefixOf s.toList

/-- Contiguous-sublist test on character lists: `pat` occurs somewhere in the
input. -/
def isInfixList (pat : List Char) : List Char → Bool
  | [] => pat.isEmpty
  | c :: rest => pat.isPrefixOf (c :: rest) || isInfixList pat rest

/-- Python string helper: the substring test `sub in s`. -/
def pyIn (sub s : String) : Bool :=
  isInfixList sub.toList s.toList

/-- Fuel-driven worker for `pyReplace`.  Scans left to right; whenever the
(non-empty) pattern is a prefix of the remaining input it is consumed and the
replacement emitted, otherwise one character is copied.  The fuel is the
length of the input, which suffices because every step consumes at least one
character. -/
def pyReplaceAux (pat repl : List Char) : Nat → List Char → List Char
  | 0, s => s
  | _ + 1, [] => []
  | fuel + 1, c :: rest =>
    if pat.isPrefixOf (c :: rest) && !pat.isEmpty then
      repl ++ pyReplaceAux pat repl fuel ((c :: rest).drop pat.length)
    else
      c :: pyReplaceAux pat repl fuel rest

/-- Python string helper: `s.replace(pat, repl)`, which replaces every
non-overlapping occurrence of `pat` in `s`, scanning left to right.
(For the empty pattern the repository never calls it; we return `s`.) -/
def pyReplace (s pat repl : String) : String :=
  ⟨pyReplaceAux pat.toList repl.toList s.toList.length s.toList⟩

/-! ## HTTP Request Engine: `request` in `src/microsoft_mcp/graph.py` -/

/-- `BASE_URL` from graph.py line 7. -/
def BASE_URL : String := "https://graph.microsoft.com/v1.0"

/-- What one HTTP attempt yields, as seen by the `try` block of `request`
(graph.py lines 47-70): either a response with a status code, an optional
parsed `Retry-After` header and an optional parsed JSON body (`none` models
an empty body), or a transport-level failure (`httpx.TransportError`:
connection/timeout). -/
inductive AttemptOutcome (α : Type) where
  | resp (status : Nat) (retryAfter : Option Nat) (content : Option α)
  | transportError
deriving DecidableEq

/-- The errors `request` can raise: an HTTP status error
(`httpx.HTTPStatusError`, from `raise_for_status`) or a transport error. -/
inductive GraphError where
  | status (code : Nat)
  | transport
deriving DecidableEq

/-- Observable side effects of one call to `request`, in order. -/
inductive Effect where
  | tokenAcq
  | attempt (authorization url : String)
  | sleep (seconds : Nat)
deriving DecidableEq

/-- Classification of one attempt's outcome by the body of the retry loop
(graph.py lines 57-85).  `inl (secs, e)` means: retryable — if an attempt
remains, sleep `secs` seconds and retry, otherwise raise `e`.  `inr r`
means the loop ends now with result `r` (success or immediate failure).
  * transport error: retryable, backoff `2 ^ attempt` (lines 76-84);
  * status 429: retryable, sleep `min(int(Retry-After or "5"), 60)`
    (lines 57-64); with no attempt left it falls through to
    `raise_for_status`, raising the 429 status error (lines 66, 72-85);
  * status ≥ 500: `raise_for_status` raises, caught as a server error,
    retryable with backoff `2 ^ attempt` (lines 66, 73-84);
  * any other status ≥ 400: `raise_for_status` raises and the handler
    re-raises at once (lines 66, 78, 85);
  * otherwise success: status 204 or an empty body yields `none`, else the
    parsed JSON body (lines 68-70). -/
def attemptStep {α : Type} (o : AttemptOutcome α) (attempt : Nat) :
    (Nat × GraphError) ⊕ (Except GraphError (Option α)) :=
  match o with
  | .transportError => .inl (2 ^ attempt, GraphError.transport)
  | .resp status retryAfter content =>
    if status = 429 then
      .inl (min (retryAfter.getD 5) 60, GraphError.status 429)
    else if 500 ≤ status then
      .inl (2 ^ attempt, GraphError.status status)
    else if 400 ≤ status then
      .inr (.error (GraphError.status status))
    else if status = 204 then
      .inr (.ok none)
    else
      match content with
      | none => .inr (.ok none)
      | some j => .inr (.ok (some j))

/-- The retry loop `for attempt in range(max_retries + 1)` of `request`
(graph.py lines 46-85), with the attempts remaining after the current one
(`max_retries - attempt`) made the structural recursion argument.
`resps a` is the outcome the network yields for attempt number `a`
(0-indexed); `auth`/`url` are the header and URL fixed before the loop.
Returns the effect trace and the final result. -/
def requestLoop {α : Type} (resps : Nat → AttemptOutcome α) (auth url : String)
    (attempt : Nat) : Nat → List Effect × Except GraphError (Option α)
  | 0 =>
    match attemptStep (resps attempt) attempt with
    | .inl (_, e) => ([Effect.attempt auth url], .error e)
    | .inr r => ([Effect.attempt auth url], r)
  | retries + 1 =>
    match attemptStep (resps attempt) attempt with
    | .inl (secs, _) =>
      let rest := requestLoop resps auth url (attempt + 1) retries
      (Effect.attempt auth url :: Effect.sleep secs :: rest.1, rest.2)
    | .inr r => ([Effect.attempt auth url], r)

/-- `request` (graph.py lines 13-87): resolves the bearer token once
(line 28, the `get_token(account_id)` call, recorded as `Effect.tokenAcq`),
builds the `Authorization` header and the URL `f"{BASE_URL}{path}"` once,
then runs the retry loop.  The conditional extra headers of lines 31-44
(`Prefer`, `Content-Type`, `ConsistencyLevel`) do not affect retry, token
or pagination behaviour and are not modelled. -/
def request {α : Type} (token path : String) (resps : Nat → AttemptOutcome α)
    (maxRetries : Nat) : List Effect × Except GraphError (Option α) :=
  let auth := "Bearer " ++ token
  let url := BASE_URL ++ path
  let res := requestLoop resps auth url 0 maxRetries
  (Effect.tokenAcq :: res.1, res.2)

/-- The sleeps of an effect trace, in order. -/
def sleepsOf (effs : List Effect) : List Nat :=
  effs.filterMap fun e =>
    match e with
    | .sleep n => some n
    | _ => none

/-- The authorization headers sent by the HTTP attempts of a trace. -/
def attemptAuths (effs : List Effect) : List String :=
  effs.filterMap fun e =>
    match e with
    | .attempt a _ => some a
    | _ => none

/-- How many HTTP attempts a trace contains. -/
def attemptCount (effs : List Effect) : Nat :=
  (attemptAuths effs).length

/-- How many token acquisitions a trace contains. -/
def tokenAcqCount (effs : List Effect) : Nat :=
  effs.countP fun e =>
    match e with
    | .tokenAcq => true
    | _ => false

/-- An attempt outcome is transient when the loop retries it: a transport
error or a 5xx response. -/
def isTransient {α : Type} : AttemptOutcome α → Prop
  | .transportError => True
  | .resp s _ _ => 500 ≤ s

instance {α : Type} (o : AttemptOutcome α) : Decidable (isTransient o) := by
  cases o with
  | transportError => exact .isTrue trivial
  | resp s ra c => exact inferInstanceAs (Decidable (500 ≤ s))

/-- The error `request` raises for an attempt outcome when no retry happens. -/
def errOf {α : Type} : AttemptOutcome α → GraphError
  | .transportError => GraphError.transport
  | .resp s _ _ => GraphError.status s

/-! ## Credential Store: `_read_cache` / `_write_cache` in auth.py -/

/-- The filesystem state the Credential Store touches: whether the config
directory `~/.microsoft-mcp` exists, and the content of
`~/.microsoft-mcp/token_cache.json` (`none` models a missing file, in which
case `Path.read_text` raises `FileNotFoundError`). -/
structure FsState where
  configDirExists : Bool
  tokenCacheFile : Option String
deriving DecidableEq

/-- `_read_cache` (auth.py lines 19-24): `read_text`, with the
`FileNotFoundError` for a missing file caught and turned into `None`. -/
def read_cache (fs : FsState) : Option String :=
  match fs.tokenCacheFile with
  | some content => some content
  | none => none

/-- `_write_cache` (auth.py lines 27-30): `mkdir(parents=True, exist_ok=True)`
on the config directory, then `write_text(content)` replacing the cache file
content. -/
def write_cache (content : String) (_fs : FsState) : FsState :=
  { configDirExists := true, tokenCacheFile := some content }

/-! ## Token Broker: `get_client_id` / `get_token` in auth.py -/

/-- Possible results of `get_client_id`. -/
inductive ClientIdOutcome where
  | ok (cid : String)
  | nameError
  | valueError (msg : String)
deriving DecidableEq

/-- Worker for the config-file branch of `get_client_id` (auth.py
lines 44-51).  The input is `none` when `~/.microsoft-mcp/config.json` does
not exist, and `some f` when it exists with `f` its parsed `client_id` field
(`none` for a missing field).  When the file exists, line 46 evaluates
`json.loads(config_file.read_text())`; `auth.py` never imports `json`, so
this raises `NameError` before any field is read — modelled by
`ClientIdOutcome.nameError`.  When the file does not exist, line 51 raises
`ValueError`. -/
def clientIdFromConfig : Option (Option String) → ClientIdOutcome
  | some _ => ClientIdOutcome.nameError
  | none =>
    ClientIdOutcome.valueError
      "GRAPH_CLIENT_ID is not set as an environment variable or configured via the set_client_id tool."

/-- `get_client_id` (auth.py lines 33-51): the `GRAPH_CLIENT_ID` environment
variable when set and non-empty (Python truthiness of `if client_id:`),
otherwise the config-file branch.  The `ValueError` message is reproduced
with its two quote characters dropped. -/
def get_client_id (envGraphClientId : Option String)
    (configJson : Option (Option String)) : ClientIdOutcome :=
  match envGraphClientId with
  | some cid => if cid = "" then clientIdFromConfig configJson else ClientIdOutcome.ok cid
  | none => clientIdFromConfig configJson

/-- An MSAL account, as used by auth.py: the fields `username` and
`home_account_id` of the dictionaries `app.get_accounts()` yields. -/
structure MsalAccount where
  username : String
  home_account_id : String
deriving DecidableEq

/-- An MSAL token result dictionary, restricted to the keys auth.py and
tools.py read: `error`, `error_description`, `access_token` and the
`preferred_username` claim of `id_token_claims` (each `none` when the key is
absent). -/
structure AuthResult where
  error : Option String
  error_description : Option String
  access_token : Option String
  preferred_username : Option String
deriving DecidableEq

/-- The MSAL `PublicClientApplication` as `get_token` observes it: the cached
accounts, what `acquire_token_silent` returns for a given account argument
(`none` models a falsy result), whether the initiated device flow carries a
`user_code`, the flow's `error_description`, and what
`acquire_token_by_device_flow` returns. -/
structure MsalApp where
  accounts : List MsalAccount
  silentResult : Option MsalAccount → Option AuthResult
  deviceFlowUserCode : Option String
  deviceFlowErrorDescription : Option String
  deviceFlowResult : AuthResult

/-- How a `get_token` call ends. -/
inductive GetTokenOutcome where
  | token (t : String)
  | deviceCodeFailure (msg : String)
  | authFailed (msg : String)
  | missingAccessToken
deriving DecidableEq

/-- What a `get_token` call did: which account the lookup of lines 75-83
resolved, whether the device-flow fallback of lines 87-100 ran, and the
outcome. -/
structure GetTokenTrace where
  resolvedAccount : Option MsalAccount
  usedDeviceFlow : Bool
  outcome : GetTokenOutcome
deriving DecidableEq

/-- The account-resolution block of `get_token` (auth.py lines 75-83):
`if account_id:` takes the exact-id lookup only for a non-`None`, non-empty
id (Python truthiness); otherwise `elif accounts:` picks the first cached
account if any.  An unmatched non-empty id leaves `account = None`. -/
def resolveAccount (accounts : List MsalAccount) (account_id : Option String) :
    Option MsalAccount :=
  match account_id with
  | some aid =>
    if aid = "" then accounts.head?
    else accounts.find? fun a => a.home_account_id == aid
  | none => accounts.head?

/-- The shared tail of `get_token` (auth.py lines 102-111): `if "error" in
result: raise`, then `result["access_token"]` (a missing key raises
`KeyError`, modelled by `missingAccessToken`). -/
def finishAuth (result : AuthResult) : GetTokenOutcome :=
  match result.error with
  | some e => GetTokenOutcome.authFailed ("Auth failed: " ++ (result.error_description.getD e))
  | none =>
    match result.access_token with
    | some t => GetTokenOutcome.token t
    | none => GetTokenOutcome.missingAccessToken

/-- `get_token` (auth.py lines 72-111): resolve the target account, try
silent acquisition, and when that yields nothing fall back to the interactive
device flow (lines 87-100: raise unless the flow has a `user_code`, else
exchange the flow for a token).  The cache persistence of lines 107-109 is
filesystem-only and is verified separately through the Credential Store
model. -/
def get_token (app : MsalApp) (account_id : Option String) : GetTokenTrace :=
  let account := resolveAccount app.accounts account_id
  match app.silentResult account with
  | some result => ⟨account, false, finishAuth result⟩
  | none =>
    match app.deviceFlowUserCode with
    | none =>
      ⟨account, true,
        GetTokenOutcome.deviceCodeFailure
          ("Failed to get device code: " ++ (app.deviceFlowErrorDescription.getD "Unknown error"))⟩
    | some _ => ⟨account, true, finishAuth app.deviceFlowResult⟩

/-! ## Device-flow completion: `complete_authentication` in tools.py -/

/-- How a `complete_authentication` call ends (tools.py lines 68-128): the
`ValueError` for an unparsable flow cache, the pending-status dictionary, the
fatal `Exception`, the success dictionary, or the error dictionary when no
account exists after authentication. -/
inductive CompleteAuthResult where
  | invalidFlowCache
  | pending
  | authFailed (msg : String)
  | success (username accountId : String)
  | noAccountError
deriving DecidableEq

/-- `complete_authentication` (tools.py lines 68-128).  `flowParses` is
whether `ast.literal_eval(flow_cache)` succeeds (lines 80-83); `result` is
what `acquire_token_by_device_flow` returns; `accounts` is
`app.get_accounts()` after the exchange.  When the result carries an error,
the message is the `error_description` (or the error code when absent); a
message containing the substring `authorization_pending` yields the pending
status (lines 90-95), any other error raises (line 96).  On success the
account whose lowercased username equals the lowercased
`preferred_username` claim is returned, else the last cached account, else
an error status (lines 102-128). -/
def complete_authentication (flowParses : Bool) (result : AuthResult)
    (accounts : List MsalAccount) : CompleteAuthResult :=
  if !flowParses then CompleteAuthResult.invalidFlowCache
  else
    match result.error with
    | some e =>
      let msg := result.error_description.getD e
      if pyIn "authorization_pending" msg then CompleteAuthResult.pending
      else CompleteAuthResult.authFailed ("Authentication failed: " ++ msg)
    | none =>
      match accounts.find? (fun a =>
          a.username.toLower == (result.preferred_username.getD "").toLower) with
      | some a => CompleteAuthResult.success a.username a.home_account_id
      | none =>
        match accounts.getLast? with
        | some a => CompleteAuthResult.success a.username a.home_account_id
        | none => CompleteAuthResult.noAccountError

/-! ## Pagination Driver: `_paginated_request` in graph.py -/

/-- One parsed page response as `_paginated_request` reads it: the `value`
array (`none` when the key is absent; items are opaque, modelled as `Nat`)
and the `@odata.nextLink` continuation link (`none` when absent).  A whole
response of `None` (e.g. a 204) is modelled by `Option PageResponse`'s
`none`. -/
structure PageResponse where
  value : Option (List Nat)
  nextLink : Option String
deriving DecidableEq

/-- The `while next_url:` loop of `_paginated_request` (graph.py
lines 94-113).  The inner `request` call is modelled by the parsed body it
returns; `pages` is the sequence of bodies the server yields to successive
GETs, consumed positionally (the retry behaviour inside `request` is
verified separately on `request` itself).  Returns the accumulated `results`
list and, in order, the path strings handed to `request` — i.e. one entry
per GET issued.  Each iteration: prepend `BASE_URL` unless the pending URL
already starts with it (line 98), strip every occurrence of `BASE_URL` via
`str.replace` (line 102), issue the GET, and continue with the response's
continuation link only when the response is truthy and has a `value` key
(lines 107-111); `while next_url:` also stops on a `None` or empty link.
The `pages = []` case is a model artifact (no scripted response left) that
the theorems' finite-chain hypotheses keep unreachable. -/
def paginated_loop : List (Option PageResponse) → Option String → List Nat × List String
  | _, none => ([], [])
  | pages, some u =>
    if u = "" then ([], [])
    else
      match pages with
      | [] => ([], [])
      | p :: rest =>
        let requested :=
          pyReplace (if pyStartswith BASE_URL u then u else BASE_URL ++ u) BASE_URL ""
        match p with
        | none => ([], [requested])
        | some r =>
          match r.value with
          | none => ([], [requested])
          | some vs =>
            let next := paginated_loop rest r.nextLink
            (vs ++ next.1, requested :: next.2)

/-- `_paginated_request` (graph.py lines 90-113): run the loop starting from
the caller-supplied path. -/
def paginated_request (pages : List (Option PageResponse)) (path : String) :
    List Nat × List String :=
  paginated_loop pages (some path)

/-! ## `upload_small_file` in graph.py -/

/-- The result of `upload_small_file`: the `ValueError` of line 167, or the
result of the `request` call it otherwise delegates to. -/
inductive UploadResult (α : Type) where
  | valueError (msg : String)
  | requested (r : Except GraphError (Option α))

/-- `upload_small_file` (graph.py lines 165-170): payloads larger than
`4 * 1024 * 1024` bytes raise `ValueError` before anything else runs (empty
effect trace — in particular no token acquisition and no HTTP attempt);
otherwise it builds the item path and performs
`request("PUT", path, ...)`.  `data` is the payload's byte list. -/
def upload_small_file {α : Type} (driveId parentId filename : String)
    (data : List Nat) (token : String) (resps : Nat → AttemptOutcome α)
    (maxRetries : Nat) : List Effect × UploadResult α :=
  if data.length > 4 * 1024 * 1024 then
    ([], UploadResult.valueError "File is larger than 4MB. Use upload_large_file instead.")
  else
    let path := "/drives/" ++ driveId ++ "/items/" ++ parentId ++ ":/" ++ filename ++ ":/content"
    let r := request token path resps maxRetries
    (r.1, UploadResult.requested r.2)

/-! ## Theorems -/

/-- C4: `get_client_id` prefers the environment variable; but with the
variable unset and the config file present, line 46 of auth.py evaluates
`json.loads` although `auth.py` never imports `json`, so the call dies with
`NameError` instead of returning the persisted `client_id` — contradicting
the function's own docstring (auth.py lines 34-39).  With neither source
available it raises the fatal `ValueError` (the spec's
`ConfigurationError`). -/
theorem get_client_id_config_branch_broken :
    get_client_id (some "env-id") (some (some "abc")) = ClientIdOutcome.ok "env-id"
    ∧ get_client_id none (some (some "abc")) = ClientIdOutcome.nameError
    ∧ get_client_id none none
        = ClientIdOutcome.valueError
            "GRAPH_CLIENT_ID is not set as an environment variable or configured via the set_client_id tool." :=
  ⟨rfl, rfl, rfl⟩

/-- C5: the Credential Store's read returns the stored content, or `none`
for a missing file (the `FileNotFoundError` is caught — by construction the
model is total and returns the absent marker); its write creates the config
directory, replaces the file content in one state transition of the
sequential filesystem model, and repeated writes are safe with the last
write winning. -/
theorem credential_store_contract (fs : FsState) (c c' : String) :
    read_cache fs = fs.tokenCacheFile
    ∧ read_cache (write_cache c fs) = some c
    ∧ (write_cache c fs).configDirExists = true
    ∧ write_cache c' (write_cache c fs) = write_cache c' fs := by
  refine ⟨?_, rfl, rfl, rfl⟩
  cases h : fs.tokenCacheFile <;> simp [read_cache, h]

/-- A concrete MSAL application state: one cached account, silent
acquisition yields nothing, and the device flow succeeds with a fresh
token. -/
def c1App : MsalApp where
  accounts := [⟨"alice@example.com", "id-alice"⟩]
  silentResult := fun _ => none
  deviceFlowUserCode := some "ABC123"
  deviceFlowErrorDescription := none
  deviceFlowResult := ⟨none, none, some "tok-device", some "bob@example.com"⟩

/-- C1 counterexample: with `"id-bob"` absent from the cache, `get_token`
does not fail with any `AccountNotFound` error — it resolves no account,
falls back to the interactive device flow, and returns that flow's token. -/
theorem get_token_unknown_id_counterexample :
    get_token c1App (some "id-bob")
      = ⟨none, true, GetTokenOutcome.token "tok-device"⟩ := rfl

/-- C1 amended: for every non-empty `account_id` matching no cached account,
`get_token` resolves the account to `None` (so it never substitutes another
cached account in the lookup), and when silent acquisition with no account
yields nothing it falls back to the interactive device flow; no
`AccountNotFound` failure exists on this path. -/
theorem get_token_unknown_id_fallback (app : MsalApp) (aid : String)
    (hne : aid ≠ "") (habs : ∀ a ∈ app.accounts, a.home_account_id ≠ aid) :
    (get_token app (some aid)).resolvedAccount = none
    ∧ (app.silentResult none = none →
        (get_token app (some aid)).usedDeviceFlow = true) := by
  have hres : resolveAccount app.accounts (some aid) = none := by
    simp only [resolveAccount, if_neg hne]
    rw [List.find?_eq_none]
    intro a ha
    simpa using habs a ha
  constructor
  · cases h : app.silentResult none with
    | some r => simp [get_token, hres, h]
    | none => cases hu : app.deviceFlowUserCode <;> simp [get_token, hres, h, hu]
  · intro hsil
    cases hu : app.deviceFlowUserCode <;> simp [get_token, hres, hsil, hu]

/-- C1 witness: the amended statement at the concrete application state. -/
theorem get_token_unknown_id_fallback_witness :
    (get_token c1App (some "id-bob")).resolvedAccount = none
    ∧ (c1App.silentResult none = none →
        (get_token c1App (some "id-bob")).usedDeviceFlow = true) :=
  get_token_unknown_id_fallback c1App "id-bob" (by decide)
    (by intro a ha; simp only [c1App, List.mem_singleton] at ha; subst ha; decide)

/-- C7: with the flow cache parsing, a provider error whose message (the
provider's `error_description`, or the error code when absent) contains
`authorization_pending` yields the distinguished pending status — not a
raised error — while any other provider error raises, surfacing the
provider-supplied description. -/
theorem complete_authentication_pending_vs_fatal (result : AuthResult)
    (accounts : List MsalAccount) (e : String) (herr : result.error = some e) :
    (pyIn "authorization_pending" (result.error_description.getD e) = true →
       complete_authentication true result accounts = CompleteAuthResult.pending)
    ∧ (pyIn "authorization_pending" (result.error_description.getD e) = false →
       complete_authentication true result accounts
         = CompleteAuthResult.authFailed
             ("Authentication failed: " ++ result.error_description.getD e)) := by
  constructor <;> intro h <;> simp [complete_authentication, herr, h]

/-- A provider result reporting the pending status. -/
def c7Pending : AuthResult :=
  ⟨some "authorization_pending",
   some "AADSTS70016: authorization_pending - user has not yet authenticated",
   none, none⟩

/-- A provider result reporting a fatal error. -/
def c7Fatal : AuthResult :=
  ⟨some "expired_token", some "AADSTS70020: the device code has expired", none, none⟩

/-- C7 witness: concrete pending and fatal completions. -/
theorem complete_authentication_pending_vs_fatal_witness :
    complete_authentication true c7Pending [] = CompleteAuthResult.pending
    ∧ complete_authentication true c7Fatal []
        = CompleteAuthResult.authFailed
            ("Authentication failed: " ++ "AADSTS70020: the device code has expired") :=
  ⟨(complete_authentication_pending_vs_fatal c7Pending [] "authorization_pending" rfl).1
      (by decide),
   (complete_authentication_pending_vs_fatal c7Fatal [] "expired_token" rfl).2
      (by decide)⟩

/-- C8: every payload strictly larger than 4 MiB makes `upload_small_file`
fail with the validation `ValueError` directing to the chunked-upload path,
with an empty effect trace: no token acquisition and no HTTP attempt
happen. -/
theorem upload_small_file_rejects_oversized {α : Type}
    (driveId parentId filename token : String) (data : List Nat)
    (resps : Nat → AttemptOutcome α) (maxRetries : Nat)
    (h : data.length > 4 * 1024 * 1024) :
    upload_small_file driveId parentId filename data token resps maxRetries
      = ([], UploadResult.valueError
            "File is larger than 4MB. Use upload_large_file instead.") := by
  simp [upload_small_file, h]

/-- A scripted server for the C8 witness. -/
def c8Resps : Nat → AttemptOutcome Nat := fun _ => AttemptOutcome.resp 200 none (some 1)

/-- C8 witness: a payload of 4 MiB + 1 bytes is rejected with no effects. -/
theorem upload_small_file_rejects_oversized_witness :
    upload_small_file "d" "root" "big.bin" (List.replicate (4 * 1024 * 1024 + 1) 0)
        "tok" c8Resps 3
      = ([], UploadResult.valueError
            "File is larger than 4MB. Use upload_large_file instead.") :=
  upload_small_file_rejects_oversized "d" "root" "big.bin" "tok" _ c8Resps 3
    (by rw [List.length_replicate]; omega)

/-- Inside the retry loop every HTTP attempt carries the one `Authorization`
header fixed before the loop, and the loop itself acquires no token. -/
theorem requestLoop_auths {α : Type} (resps : Nat → AttemptOutcome α)
    (auth url : String) (r : Nat) :
    ∀ attempt,
      attemptAuths (requestLoop resps auth url attempt r).1
        = List.replicate (attemptCount (requestLoop resps auth url attempt r).1) auth
      ∧ tokenAcqCount (requestLoop resps auth url attempt r).1 = 0 := by
  induction r with
  | zero =>
    intro attempt
    rcases h : attemptStep (resps attempt) attempt with ⟨secs, e⟩ | res <;>
      simp [requestLoop, h, attemptAuths, attemptCount, tokenAcqCount]
  | succ r ih =>
    intro attempt
    rcases h : attemptStep (resps attempt) attempt with ⟨secs, e⟩ | res
    · have hih := ih (attempt + 1)
      simp [requestLoop, h, attemptAuths, attemptCount, tokenAcqCount,
        List.replicate_succ] at hih ⊢
      exact hih
    · simp [requestLoop, h, attemptAuths, attemptCount, tokenAcqCount]

/-- C9: within a single `request` call the token is resolved exactly once,
before the first attempt (the trace starts with the one token acquisition),
and every HTTP attempt of the call — however many 429/5xx/transport retries
occur — carries the identical `Authorization` header built from that
token. -/
theorem request_token_once_header_stable {α : Type} (token path : String)
    (resps : Nat → AttemptOutcome α) (maxRetries : Nat) :
    (request token path resps maxRetries).1.head? = some Effect.tokenAcq
    ∧ tokenAcqCount (request token path resps maxRetries).1 = 1
    ∧ attemptAuths (request token path resps maxRetries).1
        = List.replicate (attemptCount (request token path resps maxRetries).1)
            ("Bearer " ++ token) := by
  have h := requestLoop_auths resps ("Bearer " ++ token) (BASE_URL ++ path) maxRetries 0
  refine ⟨by simp [request], ?_, ?_⟩
  · simp [request, tokenAcqCount, List.countP_cons] at h ⊢
    exact h.2
  · simp [request, attemptAuths, attemptCount] at h ⊢
    exact h.1

/-- When every attempt from `attempt` through `attempt + r` is transient
(5xx or transport failure), the loop performs all `r + 1` attempts, sleeps
`2 ^ a` seconds after the attempt numbered `a` for each non-final attempt,
and re-raises the error of the final attempt. -/
theorem requestLoop_transient {α : Type} (resps : Nat → AttemptOutcome α)
    (auth url : String) (r : Nat) :
    ∀ attempt, (∀ a, attempt ≤ a → a ≤ attempt + r → isTransient (resps a)) →
      sleepsOf (requestLoop resps auth url attempt r).1
          = (List.range' attempt r).map (fun a => 2 ^ a)
      ∧ attemptCount (requestLoop resps auth url attempt r).1 = r + 1
      ∧ (requestLoop resps auth url attempt r).2
          = Except.error (errOf (resps (attempt + r))) := by
  induction r with
  | zero =>
    intro attempt h
    have ht : isTransient (resps attempt) := h attempt le_rfl (by omega)
    cases ho : resps attempt with
    | transportError =>
      simp [requestLoop, attemptStep, ho, sleepsOf, attemptCount, attemptAuths, errOf]
    | resp s ra c =>
      rw [ho] at ht
      have h500 : 500 ≤ s := ht
      have h429 : ¬ s = 429 := by omega
      simp [requestLoop, attemptStep, ho, h429, h500, sleepsOf, attemptCount,
        attemptAuths, errOf]
  | succ r ih =>
    intro attempt h
    have ht : isTransient (resps attempt) := h attempt le_rfl (by omega)
    have hshift : ∀ a, attempt + 1 ≤ a → a ≤ attempt + 1 + r → isTransient (resps a) := by
      intro a h1 h2
      exact h a (by omega) (by omega)
    have hone : attempt + (r + 1) = attempt + 1 + r := by omega
    have irest := ih (attempt + 1) hshift
    cases ho : resps attempt with
    | transportError =>
      simp [requestLoop, attemptStep, ho, sleepsOf, attemptCount, attemptAuths,
        List.range'_succ, hone] at irest ⊢
      exact irest
    | resp s ra c =>
      rw [ho] at ht
      have h500 : 500 ≤ s := ht
      have h429 : ¬ s = 429 := by omega
      simp [requestLoop, attemptStep, ho, h429, h500, sleepsOf, attemptCount,
        attemptAuths, List.range'_succ, hone] at irest ⊢
      exact irest

/-- C3: a `request` whose every attempt yields a 5xx response or a transport
failure makes exactly `maxRetries + 1` attempts, sleeps `1, 2, 4, ...`
(`2 ^ attempt`, 0-indexed) seconds between consecutive attempts, and finally
re-raises the last error; and a `request` whose first response has any other
error status (4xx other than 429) fails immediately, after a single attempt
with no sleep, surfacing that status. -/
theorem request_exhausts_transient_fails_fast_on_4xx {α : Type}
    (token path : String) (resps resps2 : Nat → AttemptOutcome α)
    (maxRetries s : Nat) (ra : Option Nat) (c : Option α)
    (htrans : ∀ a, a ≤ maxRetries → isTransient (resps a))
    (h0 : resps2 0 = AttemptOutcome.resp s ra c)
    (h400 : 400 ≤ s) (h500 : s < 500) (h429 : s ≠ 429) :
    (sleepsOf (request token path resps maxRetries).1
        = (List.range maxRetries).map (fun a => 2 ^ a)
      ∧ attemptCount (request token path resps maxRetries).1 = maxRetries + 1
      ∧ (request token path resps maxRetries).2
          = Except.error (errOf (resps maxRetries)))
    ∧ request token path resps2 maxRetries
        = ([Effect.tokenAcq, Effect.attempt ("Bearer " ++ token) (BASE_URL ++ path)],
           Except.error (GraphError.status s)) := by
  constructor
  · have h := requestLoop_transient resps ("Bearer " ++ token) (BASE_URL ++ path)
      maxRetries 0 (by intro a _ ha; exact htrans a (by omega))
    rw [List.range_eq_range']
    refine ⟨?_, ?_, ?_⟩
    · simpa [request, sleepsOf] using h.1
    · simpa [request, attemptCount, attemptAuths] using h.2.1
    · simpa [request] using h.2.2
  · have hstep : attemptStep (resps2 0) 0
        = Sum.inr (Except.error (GraphError.status s)) := by
      have : ¬ 500 ≤ s := by omega
      simp [attemptStep, h0, h429, this, h400]
    cases maxRetries with
    | zero => simp [request, requestLoop, hstep]
    | succ r => simp [request, requestLoop, hstep]

/-- C2 amended, step form: a 429 response with at least one attempt left
makes the loop sleep `min(Retry-After value (default 5), 60)` seconds and
retry; the retry consumes one unit of the shared attempt budget and the
shared attempt index advances, so any later exponential backoff sleeps
`2 ^ i` for the overall attempt index `i` counting this 429 attempt. -/
theorem rate_limited_retry_shares_attempt_budget {α : Type}
    (resps : Nat → AttemptOutcome α) (auth url : String)
    (attempt r : Nat) (ra : Option Nat) (c : Option α)
    (h : resps attempt = AttemptOutcome.resp 429 ra c) :
    requestLoop resps auth url attempt (r + 1)
      = (Effect.attempt auth url
           :: Effect.sleep (min (ra.getD 5) 60)
           :: (requestLoop resps auth url (attempt + 1) r).1,
         (requestLoop resps auth url (attempt + 1) r).2)
    ∧ attemptCount (requestLoop resps auth url attempt (r + 1)).1
        = attemptCount (requestLoop resps auth url (attempt + 1) r).1 + 1 := by
  have hstep : attemptStep (resps attempt) attempt
      = Sum.inl (min (ra.getD 5) 60, GraphError.status 429) := by
    simp [attemptStep, h]
  constructor
  · simp [requestLoop, hstep]
  · simp [requestLoop, hstep, attemptCount, attemptAuths]

/-- A scripted server: rate-limited with `Retry-After: 7` on attempt 0, a
503 on attempt 1, success on any later attempt. -/
def c2Resps : Nat → AttemptOutcome Nat
  | 0 => AttemptOutcome.resp 429 (some 7) none
  | 1 => AttemptOutcome.resp 503 none none
  | _ => AttemptOutcome.resp 200 none (some 1)

/-- C2 counterexample: after a 429 retry on attempt 0, the 503 on attempt 1
backs off `2 ^ 1 = 2` seconds, not the `2 ^ 0 = 1` the claim predicts — the
429 retry does advance the exponential-backoff schedule, because the loop
shares one attempt index. -/
theorem rate_limited_retry_advances_backoff_counterexample :
    sleepsOf (request "tok" "/x" c2Resps 3).1 = [7, 2]
    ∧ (2 : Nat) = 2 ^ 1 ∧ (2 : Nat) ≠ 2 ^ 0 := by decide

/-- C2 witness: the amended step equation at the concrete scripted server,
attempt 0, three attempts remaining. -/
theorem rate_limited_retry_shares_attempt_budget_witness :
    (requestLoop c2Resps "Bearer tok" (BASE_URL ++ "/x") 0 3
      = (Effect.attempt "Bearer tok" (BASE_URL ++ "/x")
           :: Effect.sleep (min ((some 7).getD 5) 60)
           :: (requestLoop c2Resps "Bearer tok" (BASE_URL ++ "/x") 1 2).1,
         (requestLoop c2Resps "Bearer tok" (BASE_URL ++ "/x") 1 2).2))
    ∧ attemptCount (requestLoop c2Resps "Bearer tok" (BASE_URL ++ "/x") 0 3).1
        = attemptCount (requestLoop c2Resps "Bearer tok" (BASE_URL ++ "/x") 1 2).1 + 1 :=
  rate_limited_retry_shares_attempt_budget c2Resps "Bearer tok" (BASE_URL ++ "/x")
    0 2 (some 7) none rfl

/-- A scripted server answering 503 forever. -/
def c3Resps : Nat → AttemptOutcome Nat := fun _ => AttemptOutcome.resp 503 none none

/-- A scripted server answering 404 immediately. -/
def c3Resps404 : Nat → AttemptOutcome Nat := fun _ => AttemptOutcome.resp 404 none none

/-- C3 witness: with `max_retries = 2` and every attempt a 503, the call
makes 3 attempts with backoff sleeps `1, 2` and re-raises the 503; a 404
fails on the first attempt. -/
theorem request_exhausts_transient_fails_fast_on_4xx_witness :
    (sleepsOf (request "tok" "/me" c3Resps 2).1 = (List.range 2).map (fun a => 2 ^ a)
      ∧ attemptCount (request "tok" "/me" c3Resps 2).1 = 2 + 1
      ∧ (request "tok" "/me" c3Resps 2).2 = Except.error (errOf (c3Resps 2)))
    ∧ request "tok" "/me" c3Resps404 2
        = ([Effect.tokenAcq, Effect.attempt ("Bearer " ++ "tok") (BASE_URL ++ "/me")],
           Except.error (GraphError.status 404)) :=
  request_exhausts_transient_fails_fast_on_4xx "tok" "/me" c3Resps c3Resps404
    2 404 none none (by intro a _; simp [c3Resps, isTransient]) rfl
    (by omega) (by omega) (by omega)

/-- Build a finite chain of page responses: each non-final page carries its
`value` array and a continuation link, the final page only a `value`
array. -/
def chainPages (pairs : List (List Nat × String)) (last : List Nat) :
    List (Option PageResponse) :=
  pairs.map (fun p => some ⟨some p.1, some p.2⟩) ++ [some ⟨some last, none⟩]

/-- On a finite chain of pages the pagination loop returns the concatenation
of all `value` arrays in order and issues exactly one GET per page. -/
theorem paginated_loop_chain (last : List Nat) (pairs : List (List Nat × String)) :
    ∀ u : String, u ≠ "" → (∀ p ∈ pairs, p.2 ≠ "") →
      (paginated_loop (chainPages pairs last) (some u)).1
          = (pairs.map Prod.fst).flatten ++ last
      ∧ (paginated_loop (chainPages pairs last) (some u)).2.length
          = pairs.length + 1 := by
  induction pairs with
  | nil =>
    intro u hu _
    simp [paginated_loop, chainPages, hu]
  | cons p rest ih =>
    intro u hu hlinks
    obtain ⟨vs, l⟩ := p
    have hl : l ≠ "" := hlinks (vs, l) (List.mem_cons_self _ _)
    have ihr := ih l hl (fun q hq => hlinks q (List.mem_cons_of_mem _ hq))
    simp only [chainPages, List.map_cons, List.cons_append] at ihr ⊢
    simp only [paginated_loop, if_neg hu]
    simp [ihr.1, ihr.2]

/-- The scripted 3-page response sequence: pages of sizes 10, 10, 5, the
first two with base-URL-prefixed continuation links. -/
def c6Pages : List (Option PageResponse) :=
  [some ⟨some (List.range 10), some (BASE_URL ++ "/page2")⟩,
   some ⟨some (List.range' 10 10), some (BASE_URL ++ "/page3")⟩,
   some ⟨some (List.range' 20 5), none⟩]

/-- C6: on every finite chain of pages the Pagination Driver returns the
concatenation of all pages' `value` arrays in original order with exactly
one GET per page; a response lacking a `value` field ends the collection
after its GET (no error); and on the scripted 3-page sequence of sizes
10, 10, 5 it yields exactly 25 items in order, issues exactly 3 GETs, and
strips the base-URL prefix from each continuation link before the next
GET. -/
theorem pagination_collects_all_pages
    (pairs : List (List Nat × String)) (last : List Nat) (u : String)
    (rest : List (Option PageResponse)) (link : Option String) (u' : String)
    (hu : u ≠ "") (hlinks : ∀ p ∈ pairs, p.2 ≠ "") (hu' : u' ≠ "") :
    ((paginated_request (chainPages pairs last) u).1 = (pairs.map Prod.fst).flatten ++ last
      ∧ (paginated_request (chainPages pairs last) u).2.length = pairs.length + 1)
    ∧ ((paginated_request (some ⟨none, link⟩ :: rest) u').1 = []
      ∧ (paginated_request (some ⟨none, link⟩ :: rest) u').2.length = 1)
    ∧ paginated_request c6Pages "/sites/s1/drives"
        = (List.range 25, ["/sites/s1/drives", "/page2", "/page3"]) := by
  refine ⟨paginated_loop_chain last pairs u hu hlinks, ?_, by decide⟩
  simp [paginated_request, paginated_loop, hu']

/-- C6 witness: the chain statement at the concrete 3-page sequence. -/
theorem pagination_collects_all_pages_witness :
    ((paginated_request
          (chainPages
            [(List.range 10, BASE_URL ++ "/page2"), (List.range' 10 10, BASE_URL ++ "/page3")]
            (List.range' 20 5)) "/sites/s1/drives").1
        = ([(List.range 10, BASE_URL ++ "/page2"),
            (List.range' 10 10, BASE_URL ++ "/page3")].map Prod.fst).flatten
            ++ List.range' 20 5
      ∧ (paginated_request
          (chainPages
            [(List.range 10, BASE_URL ++ "/page2"), (List.range' 10 10, BASE_URL ++ "/page3")]
            (List.range' 20 5)) "/sites/s1/drives").2.length
        = [(List.range 10, BASE_URL ++ "/page2"),
           (List.range' 10 10, BASE_URL ++ "/page3")].length + 1)
    ∧ ((paginated_request [some ⟨none, none⟩] "/x").1 = []
      ∧ (paginated_request [some ⟨none, none⟩] "/x").2.length = 1)
    ∧ paginated_request c6Pages "/sites/s1/drives"
        = (List.range 25, ["/sites/s1/drives", "/page2", "/page3"]) :=
  pagination_collects_all_pages
    [(List.range 10, BASE_URL ++ "/page2"), (List.range' 10 10, BASE_URL ++ "/page3")]
    (List.range' 20 5) "/sites/s1/drives" [] none "/x"
    (by decide) (by decide) (by decide)

/-- C10: every continuation-link GET requests the link with `BASE_URL`
prepended unless already a prefix and then every occurrence of `BASE_URL`
removed by `str.replace` — not only a leading one; concretely, a
continuation link embedding the base URL in a non-prefix position (inside a
query parameter) has that embedded occurrence removed from the requested
path as well. -/
theorem pagination_replace_strips_every_occurrence
    (p : Option PageResponse) (rest : List (Option PageResponse)) (l : String)
    (hl : l ≠ "") :
    (paginated_loop (p :: rest) (some l)).2.head?
        = some (pyReplace (if pyStartswith BASE_URL l then l else BASE_URL ++ l)
            BASE_URL "")
    ∧ paginated_loop [some ⟨some [1], none⟩] (some ("/a?next=" ++ BASE_URL ++ "/b"))
        = ([1], ["/a?next=" ++ "/b"]) := by
  refine ⟨?_, by decide⟩
  simp only [paginated_loop, if_neg hl]
  cases p with
  | none => rfl
  | some r => cases hv : r.value <;> simp [hv]

/-- C10 witness: a link that both starts with the base URL and embeds it in
a query parameter. -/
theorem pagination_replace_strips_every_occurrence_witness :
    (paginated_loop [some ⟨some [1], none⟩]
          (some (BASE_URL ++ "/c?x=" ++ BASE_URL ++ "/d"))).2.head?
        = some (pyReplace
            (if pyStartswith BASE_URL (BASE_URL ++ "/c?x=" ++ BASE_URL ++ "/d")
             then BASE_URL ++ "/c?x=" ++ BASE_URL ++ "/d"
             else BASE_URL ++ (BASE_URL ++ "/c?x=" ++ BASE_URL ++ "/d"))
            BASE_URL "")
    ∧ paginated_loop [some ⟨some [1], none⟩] (some ("/a?next=" ++ BASE_URL ++ "/b"))
        = ([1], ["/a?next=" ++ "/b"]) :=
  pagination_replace_strips_every_occurrence (some ⟨some [1], none⟩) []
    (BASE_URL ++ "/c?x=" ++ BASE_URL ++ "/d") (by decide)

end MicrosoftMCP
